import Mathlib

/-!
Shallow embedding of the cinematic-animation repository
(src/app/components/CinematicCanvas.tsx and src/app/components/HudOverlay.tsx).

The JavaScript number arithmetic of the clock and of the timeline overlay is
modelled over the rationals (every machine double is a rational number); the
geometric draw-pass pipeline, which uses transcendental functions, is modelled
over the reals with Real.sin and Real.cos.  The JavaScript remainder operator
on numbers (the sign of the result follows the dividend, as with C fmod) is
modelled exactly by subtracting the truncated quotient.

The file lists all definitions first and all theorems afterwards.
-/

namespace CinematicCanvas

/-- Truncation toward zero of a rational, as JavaScript obtains the integral
quotient underlying the remainder operator. -/
def truncQ (q : ℚ) : ℤ := if q < 0 then ⌈q⌉ else ⌊q⌋

/-- JavaScript remainder on numbers: x % m = x - m * trunc (x / m); the sign
of a nonzero result follows the dividend x. -/
def jsRemQ (x m : ℚ) : ℚ := x - m * (truncQ (x / m) : ℚ)

/-- Source constant TOTAL_DURATION = 45_000 (milliseconds), from
CinematicCanvas.tsx. -/
def TOTAL_DURATION : ℚ := 45000

/-- Source function wrapTime: ((timestamp % loopLength) + loopLength) %
loopLength. -/
def wrapTime (timestamp loopLength : ℚ) : ℚ :=
  jsRemQ (jsRemQ timestamp loopLength + loopLength) loopLength

/-- The mathematical (floor-based, always nonnegative) remainder, the value
wrapTime is shown to compute. -/
def floorRem (x m : ℚ) : ℚ := x - m * (⌊x / m⌋ : ℚ)

end CinematicCanvas

namespace HudOverlay

/-- Narrative marker of the timeline overlay (HudOverlay.tsx): a time offset
in seconds into the 45-second loop and a display label. -/
structure Marker where
  time : ℚ
  label : String
  deriving DecidableEq, Repr

/-- Source constant TIMELINE, the fixed ordered list of six narrative
markers. -/
def TIMELINE : List Marker :=
  [⟨0, "Times Square Awakens"⟩,
   ⟨5, "Shockwave Kick"⟩,
   ⟨12, "Arena Transformation"⟩,
   ⟨20, "Superhero Allies"⟩,
   ⟨28, "Monster Siege"⟩,
   ⟨38, "Final Mega Kick"⟩]

/-- Source constant TOTAL = 45 (seconds). -/
def TOTAL : ℚ := 45

/-- Source computation of activeMarker: start from TIMELINE[0] and walk the
list, replacing the current marker whenever elapsed is at or past the
candidate marker time. -/
def activeMarker (elapsed : ℚ) : Marker :=
  TIMELINE.foldl (fun current m => if m.time ≤ elapsed then m else current)
    (TIMELINE.headD ⟨0, ""⟩)

/-- Modelled from the specification words for comparison: the active marker is
the LAST marker of the list whose time is at most the elapsed time (later
entries override earlier ones). -/
def specActiveMarker (elapsed : ℚ) : Marker :=
  (TIMELINE.filter (fun m => m.time ≤ elapsed)).getLastD (TIMELINE.headD ⟨0, ""⟩)

/-- Source computation of the overlay clock (HudOverlay.tsx, the loop
callback): elapsed = ((now - start) % (TOTAL * 1000)) / 1000. -/
def hudElapsed (now start : ℚ) : ℚ :=
  CinematicCanvas.jsRemQ (now - start) (TOTAL * 1000) / 1000

end HudOverlay

namespace CinematicCanvas

noncomputable section

/-- Truncation toward zero over the reals, underlying the JavaScript
remainder operator in the draw passes. -/
def truncR (q : ℝ) : ℤ := if q < 0 then ⌈q⌉ else ⌊q⌋

/-- JavaScript remainder over the reals: x % m = x - m * trunc (x / m). -/
def jsRem (x m : ℝ) : ℝ := x - m * (truncR (x / m) : ℝ)

/-- Source helper lerp. -/
def lerp (a b t : ℝ) : ℝ := a + (b - a) * t

/-- Source helper easeInOut (cubic in/out easing). -/
def easeInOut (t : ℝ) : ℝ :=
  if t < 0.5 then 4 * t * t * t else 1 - (-2 * t + 2) ^ 3 / 2

/-- Source helper clamp (value, lo, hi) = Math.min(hi, Math.max(lo, value)). -/
def clamp (value lo hi : ℝ) : ℝ := Min.min hi (Max.max lo value)

/-- Building layout descriptor. -/
structure Building where
  x : ℝ
  width : ℝ
  height : ℝ
  lightSeed : ℝ

/-- Billboard layout descriptor. -/
structure Billboard where
  x : ℝ
  y : ℝ
  width : ℝ
  height : ℝ
  rotation : ℝ

/-- One loop iteration of generateBuildings. -/
def buildingAt (count i : ℕ) : Building :=
  let seed := Real.sin ((i : ℝ) * 2245.929) * 10000
  { x := ((i : ℝ) / (count : ℝ)) * 1.05 - 0.05 + jsRem seed 0.03
    width := 0.03 + jsRem (seed * 1.3) 0.05
    height := 0.3 + jsRem (seed * 3.7) 0.7
    lightSeed := |seed| }

/-- Source function generateBuildings. -/
def generateBuildings (count : ℕ) : List Building :=
  (List.range count).map (buildingAt count)

/-- One entry of generateBillboards. -/
def billboardAt (index : ℕ) : Billboard :=
  let seed := Real.cos ((index : ℝ) * 512.42) * 9999
  { x := 0.1 + jsRem |seed| 0.8 * 0.8
    y := 0.1 + jsRem (seed * 0.53) 0.6 * 0.6
    width := 0.1 + jsRem (seed * 1.2) 0.2
    height := 0.08 + jsRem (seed * 0.91) 0.12
    rotation := jsRem seed Real.pi / 6 }

/-- Source function generateBillboards (fixed length 6). -/
def generateBillboards : List Billboard :=
  (List.range 6).map billboardAt

/-- Paint value for fill/stroke/shadow styles: CSS color strings and canvas
gradients, with their numeric content kept. -/
inductive Paint where
  | rgba (r g b a : ℝ)
  | hsla (hue s l a : ℝ)
  | linearGradient (x0 y0 x1 y1 : ℝ) (stops : List (ℝ × Paint))
  | radialGradient (x0 y0 r0 x1 y1 r1 : ℝ) (stops : List (ℝ × Paint))

/-- One 2D-canvas operation, as issued by the draw passes.  A frame is the
list of operations issued during one renderFrame call. -/
inductive Command where
  | clearRect (x y w h : ℝ)
  | setFillStyle (p : Paint)
  | setStrokeStyle (p : Paint)
  | setLineWidth (w : ℝ)
  | setGlobalAlpha (a : ℝ)
  | setCompositeOperation (op : String)
  | setFont (weight : String) (size : ℝ) (family : String)
  | setTextAlign (a : String)
  | setShadowColor (p : Paint)
  | setShadowBlur (b : ℝ)
  | save
  | restore
  | translate (x y : ℝ)
  | scale (x y : ℝ)
  | rotate (angle : ℝ)
  | beginPath
  | closePath
  | moveTo (x y : ℝ)
  | lineTo (x y : ℝ)
  | arc (x y radius startAngle endAngle : ℝ)
  | ellipse (x y rx ry rotation startAngle endAngle : ℝ)
  | quadraticCurveTo (cx cy x y : ℝ)
  | fillRect (x y w h : ℝ)
  | strokeRect (x y w h : ℝ)
  | fill
  | stroke
  | fillText (text : String) (x y : ℝ)

/-- The read-only per-frame data handed to every draw pass (the SceneContext
of the source, without the mutable drawing context, whose issued operations
are the passes' return values here). -/
structure SceneContext where
  width : ℝ
  height : ℝ
  t : ℝ
  buildings : List Building
  billboards : List Billboard

/-- Appending one operation to the operation log (one ctx method call). -/
def emit (s : List Command) (c : Command) : List Command := s ++ [c]

/-- Appending the operations of a whole draw pass to the operation log. -/
def emits (s cs : List Command) : List Command := s ++ cs

/-- Draw pass 1 (Sky): gradient backdrop and 120 twinkling star sprites. -/
def drawSkies (scene : SceneContext) : List Command :=
  let baseShift := Real.sin (scene.t * 0.1) * 0.1
  [Command.setFillStyle (Paint.linearGradient 0 0 0 scene.height
      [(0, Paint.rgba (10 + baseShift * 50) 10 60 1),
       (0.5, Paint.rgba 5 10 30 0.95),
       (1, Paint.rgba 0 0 8 1)]),
   Command.fillRect 0 0 scene.width scene.height] ++
  (List.range 120).flatMap (fun i =>
    let p := jsRem ((i : ℝ) * 97.77) 1
    let x := p * scene.width
    let y := ((Real.sin ((i : ℝ) * 42.12 + scene.t * 0.3) + 1) / 2) * scene.height * 0.5
    let size := ((Real.cos ((i : ℝ) * 12.12 + scene.t) + 1) / 2) * 1.5 + 0.5
    [Command.setFillStyle (Paint.rgba (150 + ((i % 50 : ℕ) : ℝ)) (80 + ((i % 40 : ℕ) : ℝ)) 255
        (0.5 + (Real.sin (scene.t * 2 + (i : ℝ)) + 1) / 4)),
     Command.beginPath,
     Command.arc x y size 0 (Real.pi * 2),
     Command.fill])

/-- Window grid and billboard drawing of one building in drawCity. -/
def cityBuilding (scene : SceneContext) (index : ℕ) (building : Building) : List Command :=
  let x := building.x * scene.width
  let w := building.width * scene.width
  let h := -building.height * scene.height
  let offset := Real.sin (scene.t * 0.5 + building.lightSeed) * 20
  let windowRows : ℕ := 8
  let windowCols : ℤ := Max.max 4 ⌊w / 12⌋
  let flicker := 0.3 + (Real.sin (scene.t * 2 + (index : ℝ)) + 1) / 2
  [Command.setFillStyle (Paint.linearGradient 0 h 0 0
      [(0, Paint.rgba (20 + (index : ℝ) * 3) 10 60 0.9),
       (0.5, Paint.rgba (10 + (index : ℝ) * 2) 10 40 0.9),
       (1, Paint.rgba 10 8 30 0.8)]),
   Command.fillRect x h w (-h)] ++
  (List.range' 1 (windowRows - 1)).flatMap (fun r =>
    (List.range windowCols.toNat).flatMap (fun c =>
      let wx := x + 6 + (c : ℝ) * (w / (windowCols : ℝ))
      let wy := h + (r : ℝ) * (-h / (windowRows : ℝ))
      let windowOn := (r + c + index) % 3 ≠ 0
      let intensity := if windowOn then flicker else 0.1
      [Command.setFillStyle (Paint.rgba (120 + intensity * 80) (60 + intensity * 120)
          (20 + intensity * 160) (0.4 + intensity * 0.3)),
       Command.fillRect wx wy 4 (8 + offset * 0.02)]))

/-- Neon billboard drawing of one billboard in drawCity. -/
def cityBillboard (scene : SceneContext) (index : ℕ) (board : Billboard) : List Command :=
  let x := board.x * scene.width
  let y := -board.y * scene.height * 0.6
  let w := board.width * scene.width
  let h := board.height * scene.height
  [Command.save,
   Command.translate (x + w / 2) (y - h / 2),
   Command.rotate (board.rotation + Real.sin (scene.t * 0.5 + (index : ℝ)) * 0.02),
   Command.setFillStyle (Paint.linearGradient (-w / 2) (-h / 2) (w / 2) (h / 2)
      [(0, Paint.rgba 0 (140 + (index : ℝ) * 10) (255 - (index : ℝ) * 20) 0.3),
       (1, Paint.rgba 255 (60 + (index : ℝ) * 20) (180 - (index : ℝ) * 10) 0.7)]),
   Command.fillRect (-w / 2) (-h / 2) w h,
   Command.setLineWidth (2 + Real.sin (scene.t * 6 + (index : ℝ)) * 0.5),
   Command.setStrokeStyle (Paint.rgba 255 255 255 0.8),
   Command.strokeRect (-w / 2) (-h / 2) w h,
   Command.restore]

/-- Draw pass 2 (City): buildings with flickering windows, then neon
billboards, inside a translated frame. -/
def drawCity (scene : SceneContext) : List Command :=
  let baseline := scene.height * 0.68
  [Command.save,
   Command.translate 0 baseline,
   Command.scale 1 1] ++
  scene.buildings.enum.flatMap (fun ib => cityBuilding scene ib.1 ib.2) ++
  scene.billboards.enum.flatMap (fun ib => cityBillboard scene ib.1 ib.2) ++
  [Command.restore]

/-- Shockwave activation window start (seconds). -/
def shockStart : ℝ := 5

/-- Shockwave activation window end (seconds). -/
def shockEnd : ℝ := 11

/-- Clamped local progress of the shockwave. -/
def shockLocalT (t : ℝ) : ℝ := clamp ((t - shockStart) / (shockEnd - shockStart)) 0 1

/-- Radius of the shockwave ring: eased local progress interpolated from 0 to
1.2 times the larger frame dimension. -/
def shockRadius (width height t : ℝ) : ℝ :=
  lerp 0 (Max.max width height * 1.2) (easeInOut (shockLocalT t))

/-- Draw pass 3 (Shockwave): one expanding radial-gradient ring, gated to
start at t = 5. -/
def drawShockwave (scene : SceneContext) : List Command :=
  if scene.t < shockStart then [] else
  let radius := shockRadius scene.width scene.height scene.t
  let centerX := scene.width / 2
  let centerY := scene.height * 0.65
  [Command.setFillStyle (Paint.radialGradient centerX centerY (radius * 0.1)
      centerX centerY radius
      [(0, Paint.rgba 255 220 120 0.8),
       (0.3, Paint.rgba 255 120 20 0.35),
       (0.6, Paint.rgba 50 120 255 0.25),
       (1, Paint.rgba 0 0 0 0)]),
   Command.beginPath,
   Command.arc centerX centerY radius 0 (Real.pi * 2),
   Command.fill]

/-- Animated billboard beam of drawArena for one billboard. -/
def arenaBeam (scene : SceneContext) (localT : ℝ) (index : ℕ) (board : Billboard) :
    List Command :=
  let beamProgress := jsRem (localT * 1.5 + (index : ℝ) * 0.1 + scene.t * 0.2) 1
  let x := board.x * scene.width
  let y := scene.height * (0.4 + board.y * 0.4)
  let w := board.width * scene.width * (0.6 + localT * 0.8)
  let h := board.height * scene.height * (0.6 + localT * 0.7)
  [Command.setFillStyle (Paint.linearGradient x y x (y - h * 1.8)
      [(0, Paint.rgba 0 255 220 0),
       (clamp (beamProgress - 0.1) 0 1, Paint.rgba 0 255 220 0),
       (clamp beamProgress 0 1, Paint.rgba 255 80 220 0.55),
       (clamp (beamProgress + 0.05) 0 1, Paint.rgba 255 140 20 0.2),
       (1, Paint.rgba 0 0 0 0)]),
   Command.fillRect (x - w / 2) (y - h * 1.8) w (h * 1.8)]

/-- Draw pass 4 (Arena): neon floor grid, firework burst arcs, pulsing title
text and billboard light beams, gated to start at t = 9. -/
def drawArena (scene : SceneContext) : List Command :=
  if scene.t < 9 then [] else
  let localT := clamp ((scene.t - 9) / (20 - 9)) 0 1
  let pulse := Real.sin (scene.t * 5) * 0.5 + 0.5
  let gridOpacity := 0.25 + localT * 0.6
  let floorY := scene.height * 0.72
  [Command.save,
   Command.setGlobalAlpha gridOpacity,
   Command.setStrokeStyle (Paint.rgba 0 255 240 (0.4 + pulse * 0.2)),
   Command.setLineWidth 1.5] ++
  (List.range 20).flatMap (fun i =>
    let x := ((i : ℝ) / 19) * scene.width
    [Command.beginPath,
     Command.moveTo x floorY,
     Command.lineTo (scene.width / 2 + (x - scene.width / 2) * 1.6) scene.height,
     Command.stroke]) ++
  (List.range 12).flatMap (fun j =>
    let y := floorY + ((j : ℝ) / 12) * (scene.height - floorY)
    [Command.beginPath,
     Command.moveTo 0 y,
     Command.lineTo scene.width (y + Real.sin (scene.t + (j : ℝ)) * 20),
     Command.stroke]) ++
  [Command.restore] ++
  (List.range 6).flatMap (fun i =>
    let phase := jsRem (scene.t * 0.8 + (i : ℝ)) 1
    let alpha := 1 - phase
    let cx := (0.1 + 0.8 * jsRem ((i : ℝ) * 97.31) 1) * scene.width
    let cy := scene.height * (0.2 + jsRem ((i : ℝ) * 0.17) 0.4)
    let radius := 80 + phase * 220
    [Command.setStrokeStyle (Paint.rgba 255 (60 + (i : ℝ) * 25) (200 - (i : ℝ) * 20)
        (alpha * (0.6 + pulse * 0.2))),
     Command.setLineWidth 2.5,
     Command.beginPath,
     Command.arc cx cy radius 0 (Real.pi * 2),
     Command.stroke]) ++
  [Command.save,
   Command.setFont "bold" (Max.max 28 (scene.width * 0.03)) "\"Bebas Neue\", \"Oswald\", sans-serif",
   Command.setTextAlign "center",
   Command.setFillStyle (Paint.rgba 255 80 180 (0.6 + localT * 0.4)),
   Command.setShadowColor (Paint.rgba 0 255 220 (0.7 * (0.4 + pulse * 0.6))),
   Command.setShadowBlur (30 + 40 * pulse),
   Command.fillText "RONALDO VS THE WORLD" (scene.width / 2) (scene.height * 0.12),
   Command.restore] ++
  scene.billboards.enum.flatMap (fun ib => arenaBeam scene localT ib.1 ib.2)

/-- Fixed portal descriptor of drawPortals. -/
structure Portal where
  x : ℝ
  y : ℝ
  hue : ℝ
  label : String

/-- Portal activation window start (seconds). -/
def portalStart : ℝ := 18

/-- Portal activation window end (seconds). -/
def portalEnd : ℝ := 31

/-- Drawing of one portal in drawPortals. -/
def portalDraw (scene : SceneContext) (pulse : ℝ) (index : ℕ) (portal : Portal) :
    List Command :=
  let appearDelay := (index : ℝ) * 0.5
  let progress := clamp ((scene.t - portalStart - appearDelay) /
      (portalEnd - portalStart - appearDelay)) 0 1
  let radius := 90 + progress * 70
  [Command.save,
   Command.setCompositeOperation "lighter",
   Command.setLineWidth (4 + pulse * 3),
   Command.setStrokeStyle (Paint.hsla portal.hue 90 (50 + pulse * 20) (0.5 + progress * 0.4)),
   Command.beginPath,
   Command.arc portal.x portal.y radius 0 (Real.pi * 2),
   Command.stroke,
   Command.setLineWidth 2,
   Command.setStrokeStyle (Paint.hsla portal.hue 100 (70 + pulse * 10) 0.6)] ++
  (List.range 6).flatMap (fun i =>
    let angle := ((i : ℝ) / 6) * Real.pi * 2 + scene.t * 0.8
    [Command.beginPath,
     Command.arc (portal.x + Real.cos angle * radius * 0.3)
       (portal.y + Real.sin angle * radius * 0.3) (radius * 0.4) angle
       (angle + Real.pi / 1.6),
     Command.stroke]) ++
  [Command.setFillStyle (Paint.hsla portal.hue 100 (25 + pulse * 20) (0.6 + progress * 0.3)),
   Command.beginPath,
   Command.ellipse portal.x portal.y (30 + progress * 20) (60 + progress * 30) 0 0 (Real.pi * 2),
   Command.fill,
   Command.setFillStyle (Paint.rgba 10 10 12 0.9),
   Command.beginPath,
   Command.arc portal.x (portal.y - 50 - progress * 10) (14 + progress * 4) 0 (Real.pi * 2),
   Command.fill,
   Command.setFillStyle (Paint.rgba 255 255 255 0.8),
   Command.setFont "600" (Max.max 16 (scene.width * 0.012)) "\"Rajdhani\", sans-serif",
   Command.setTextAlign "center",
   Command.fillText portal.label portal.x (portal.y + 90 + progress * 40),
   Command.restore]

/-- Draw pass 5 (Portals): four fixed-position portal rings with delayed
appearance, swirl arcs, silhouettes and labels, gated to start at t = 18. -/
def drawPortals (scene : SceneContext) : List Command :=
  if scene.t < portalStart then [] else
  let pulse := Real.sin (scene.t * 4) * 0.5 + 0.5
  let positions : List Portal :=
    [⟨scene.width * 0.22, scene.height * 0.45, 210, "MESSI"⟩,
     ⟨scene.width * 0.78, scene.height * 0.46, 140, "NEYMAR"⟩,
     ⟨scene.width * 0.35, scene.height * 0.25, 280, "MBAPPÃ‰"⟩,
     ⟨scene.width * 0.65, scene.height * 0.2, 20, "HAALAND"⟩]
  positions.enum.flatMap (fun ip => portalDraw scene pulse ip.1 ip.2)

/-- Fixed antagonist descriptor of drawMonsters. -/
structure Monster where
  x : ℝ
  y : ℝ
  scale : ℝ
  hue : ℝ

/-- Monster activation window start (seconds). -/
def monsterStart : ℝ := 24

/-- Monster activation window end (seconds). -/
def monsterEnd : ℝ := 44

/-- Saturating global phase of the Monsters pass. -/
def monsterPhase (t : ℝ) : ℝ := clamp ((t - monsterStart) / (monsterEnd - monsterStart)) 0 1

/-- Drawing of one antagonist in drawMonsters. -/
def monsterDraw (scene : SceneContext) (index : ℕ) (monster : Monster) : List Command :=
  let appearDelay := (index : ℝ) * 0.8
  let progress := clamp ((scene.t - monsterStart - appearDelay) /
      (monsterEnd - monsterStart)) 0 1
  let size := 120 * monster.scale * (0.5 + progress * 0.6)
  [Command.save,
   Command.setGlobalAlpha (0.6 + progress * 0.4),
   Command.setFillStyle (Paint.radialGradient monster.x monster.y (size * 0.3)
      monster.x monster.y size
      [(0, Paint.hsla monster.hue 80 70 0.9),
       (0.6, Paint.hsla monster.hue 90 40 0.7),
       (1, Paint.rgba 0 0 0 0)]),
   Command.beginPath,
   Command.ellipse monster.x monster.y size (size * 0.75) 0 0 (Real.pi * 2),
   Command.fill,
   Command.setLineWidth 4,
   Command.setStrokeStyle (Paint.hsla monster.hue 90 80 0.7),
   Command.beginPath,
   Command.moveTo (monster.x - size * 0.7) monster.y,
   Command.quadraticCurveTo monster.x (monster.y - size * 0.8) (monster.x + size * 0.7) monster.y,
   Command.quadraticCurveTo monster.x (monster.y + size * 0.8) (monster.x - size * 0.7) monster.y,
   Command.stroke,
   Command.setFillStyle (Paint.rgba 255 80 60 (0.8 + Real.sin (scene.t * 6 + (index : ℝ)) * 0.2)),
   Command.beginPath,
   Command.arc monster.x (monster.y - size * 0.1) (size * 0.18) 0 (Real.pi * 2),
   Command.fill] ++
  (List.range 3).flatMap (fun i =>
    let offsetAngle := ((i : ℝ) / 3) * Real.pi / 4 - Real.pi / 8
    let beamProgress := jsRem (scene.t * 1.4 + (i : ℝ) + (index : ℝ)) 1
    let beamIntensity := 0.4 + monsterPhase scene.t * 0.6
    let beamLength := scene.height * (0.4 + beamProgress * 0.6)
    [Command.setStrokeStyle (Paint.rgba 255 (120 + (index : ℝ) * 40) 50 beamIntensity),
     Command.setLineWidth (3 + Real.sin (scene.t * 8 + (i : ℝ)) * 1.2),
     Command.beginPath,
     Command.moveTo monster.x (monster.y - size * 0.1),
     Command.lineTo (monster.x + Real.cos (offsetAngle + beamProgress * Real.pi) * beamLength)
       (monster.y + Real.sin (offsetAngle + beamProgress * Real.pi) * beamLength),
     Command.stroke]) ++
  [Command.restore]

/-- Draw pass 6 (Monsters): three antagonist blobs with armor curve, eye and
laser beams; the source gates only on t less than 24 (no upper cutoff). -/
def drawMonsters (scene : SceneContext) : List Command :=
  if scene.t < monsterStart then [] else
  let monsters : List Monster :=
    [⟨scene.width * 0.12, scene.height * 0.5, 1.2, 190⟩,
     ⟨scene.width * 0.88, scene.height * 0.52, 1.1, 310⟩,
     ⟨scene.width * 0.5, scene.height * 0.18, 1.5, 40⟩]
  monsters.enum.flatMap (fun im => monsterDraw scene im.1 im.2)

/-- Source constant baseSize = 160 of drawHero: an absolute pixel size, not
normalized to the frame dimensions. -/
def baseSize : ℝ := 160

/-- Horizontal center of the hero (half the frame width). -/
def heroX (width : ℝ) : ℝ := width / 2

/-- Vertical anchor of the hero (0.65 of the frame height). -/
def heroY (height : ℝ) : ℝ := height * 0.65

/-- Three-phase envelope of the held ball in drawHero: grow-in over [0, 5),
hold at 1 over [5, 40), shrink-out over [40, 45]. -/
def holdingPhase (t : ℝ) : ℝ :=
  if t < 5 then clamp (t / 5) 0 1
  else if t < 40 then 1
  else clamp (1 - (t - 40) / 5) 0 1

/-- Horizontal offset of the ball from the hero center in drawHero: a fixed
held offset up to t = 5, then a sine-shaped throw that ends at offset 0. -/
def ballOffsetX (t : ℝ) : ℝ :=
  if 5 < t then baseSize * 0.9 * Real.sin (clamp ((t - 5) / 0.5) 0 1 * Real.pi)
  else baseSize * 0.4

/-- Absolute x position of the ball in drawHero. -/
def ballX (t width : ℝ) : ℝ := heroX width + ballOffsetX t

/-- Draw pass 7 (Hero): lightning arcs (gated to t above 28), body glow,
silhouette, armor highlight, head and the held golden ball. -/
def drawHero (scene : SceneContext) : List Command :=
  let hx := heroX scene.width
  let hy := heroY scene.height
  let pulse := Real.sin (scene.t * 8) * 0.5 + 0.5
  (if 28 < scene.t then
    [Command.save,
     Command.setGlobalAlpha (0.4 + pulse * 0.3)] ++
    (List.range 12).flatMap (fun i =>
      let angle := ((i : ℝ) / 12) * Real.pi * 2 + scene.t * 2
      let length := baseSize * (0.6 + Real.sin (scene.t * 4 + (i : ℝ)) * 0.4)
      [Command.setStrokeStyle (Paint.rgba 120 220 255 (0.6 + pulse * 0.3)),
       Command.setLineWidth 1.6,
       Command.beginPath,
       Command.moveTo hx (hy - baseSize * 0.7),
       Command.lineTo (hx + Real.cos angle * length) (hy - baseSize * 0.7 + Real.sin angle * length),
       Command.stroke]) ++
    [Command.restore]
  else []) ++
  (let glowRadius := baseSize * (0.45 + pulse * 0.1)
  [Command.setFillStyle (Paint.radialGradient hx hy (glowRadius * 0.2) hx hy glowRadius
      [(0, Paint.rgba 255 210 120 0.9),
       (0.4, Paint.rgba 255 120 40 0.7),
       (1, Paint.rgba 0 0 0 0)]),
   Command.beginPath,
   Command.arc hx hy glowRadius 0 (Real.pi * 2),
   Command.fill,
   Command.setFillStyle (Paint.rgba 15 20 30 0.95),
   Command.beginPath,
   Command.ellipse hx (hy - baseSize * 0.2) (baseSize * 0.22) (baseSize * 0.55) 0 0 (Real.pi * 2),
   Command.fill,
   Command.setFillStyle (Paint.rgba 255 215 120 (0.6 + pulse * 0.4)),
   Command.beginPath,
   Command.moveTo (hx - baseSize * 0.2) (hy - baseSize * 0.05),
   Command.quadraticCurveTo hx (hy - baseSize * 0.45) (hx + baseSize * 0.2) (hy - baseSize * 0.05),
   Command.quadraticCurveTo hx (hy + baseSize * 0.1) (hx - baseSize * 0.2) (hy - baseSize * 0.05),
   Command.fill,
   Command.setFillStyle (Paint.rgba 230 230 240 0.95),
   Command.beginPath,
   Command.arc hx (hy - baseSize * 0.6) (baseSize * 0.12) 0 (Real.pi * 2),
   Command.fill]) ++
  (let bx := ballX scene.t scene.width
  let by2 := hy - baseSize * 0.35
  let ballRadius := baseSize * (0.16 + pulse * 0.02) * holdingPhase scene.t
  if 0 < ballRadius then
    [Command.setFillStyle (Paint.radialGradient bx by2 (ballRadius * 0.3) bx by2 ballRadius
        [(0, Paint.rgba 255 220 140 1),
         (0.4, Paint.rgba 255 180 40 0.9),
         (1, Paint.rgba 120 60 10 0.05)]),
     Command.beginPath,
     Command.arc bx by2 ballRadius 0 (Real.pi * 2),
     Command.fill,
     Command.setStrokeStyle (Paint.rgba 255 255 200 (0.6 + pulse * 0.3)),
     Command.setLineWidth 2] ++
    (List.range 5).flatMap (fun i =>
      let angle := ((i : ℝ) / 5) * Real.pi * 2 + scene.t * 2
      [Command.beginPath,
       Command.arc bx by2 (ballRadius * (1.2 + pulse * 0.1)) angle (angle + Real.pi / 3),
       Command.stroke])
  else [])

/-- Draw pass 8 (Energy Flows): 18 sine-wave ribbons and 70 ground sparks. -/
def drawEnergyFlows (scene : SceneContext) : List Command :=
  let baseY := scene.height * 0.72
  (List.range 18).flatMap (fun i =>
    let waveT := jsRem (scene.t * 0.7 + (i : ℝ) * 0.1) 1
    let alpha := 0.15 + (1 - waveT) * 0.3
    [Command.setStrokeStyle (Paint.rgba (20 + (i : ℝ) * 5) (160 + (i : ℝ) * 3) 255 alpha),
     Command.setLineWidth 1.2,
     Command.beginPath] ++
    (List.range (if scene.width < 0 then 0 else ⌊scene.width / 15⌋.toNat + 1)).map (fun k =>
      let x := (k : ℝ) * 15
      let progress := x / scene.width
      let y := baseY + Real.sin (progress * Real.pi * 6 + scene.t * 3 + (i : ℝ)) * 20 * (1 - waveT)
          - waveT * 180
      Command.lineTo x y) ++
    [Command.stroke]) ++
  (List.range 70).flatMap (fun i =>
    let seed := (i : ℝ) * 12.92
    let flicker := (Real.sin (scene.t * 10 + seed) + 1) / 2
    let x := jsRem (seed * 123.77) 1 * scene.width
    let y := baseY + Real.sin (seed * 0.2 + scene.t * 3) * 25
    [Command.setFillStyle (Paint.rgba 255 (120 + flicker * 120) (40 + flicker * 120)
        (0.2 + flicker * 0.3)),
     Command.beginPath,
     Command.arc x y (2 + flicker * 4) 0 (Real.pi * 2),
     Command.fill])

/-- Draw pass 9 (Foreground Effects): screen-blended beam, impact flash and
30 glass shards, gated to start at t = 38. -/
def drawForegroundEffects (scene : SceneContext) : List Command :=
  if scene.t < 38 then [] else
  let finaleProgress := clamp ((scene.t - 38) / 7) 0 1
  let beamAngle := -Real.pi / 6
  let hx := scene.width / 2
  let hy := scene.height * 0.65
  let beamLength := scene.width * 0.8
  let impactX := hx + Real.cos beamAngle * beamLength
  let impactY := hy + Real.sin beamAngle * beamLength
  let impactRadius := 120 + finaleProgress * 180
  [Command.save,
   Command.setCompositeOperation "screen",
   Command.setFillStyle (Paint.linearGradient hx hy (hx + Real.cos beamAngle * beamLength)
      (hy + Real.sin beamAngle * beamLength)
      [(0, Paint.rgba 255 250 210 0.8),
       (0.3, Paint.rgba 255 180 80 0.9),
       (0.7, Paint.rgba 80 140 255 (0.7 + finaleProgress * 0.3)),
       (1, Paint.rgba 0 0 0 0)]),
   Command.beginPath,
   Command.moveTo (hx - 20) (hy - 10),
   Command.lineTo (hx + Real.cos beamAngle * beamLength)
     (hy + Real.sin beamAngle * beamLength - 80),
   Command.lineTo (hx + Real.cos beamAngle * beamLength)
     (hy + Real.sin beamAngle * beamLength + 80),
   Command.lineTo (hx + 20) (hy + 10),
   Command.closePath,
   Command.fill,
   Command.setFillStyle (Paint.radialGradient impactX impactY (impactRadius * 0.1)
      impactX impactY impactRadius
      [(0, Paint.rgba 255 255 255 (0.9 - finaleProgress * 0.2)),
       (0.4, Paint.rgba 255 200 120 0.6),
       (1, Paint.rgba 0 0 0 0)]),
   Command.beginPath,
   Command.arc impactX impactY impactRadius 0 (Real.pi * 2),
   Command.fill,
   Command.setGlobalAlpha (0.8 - finaleProgress * 0.3)] ++
  (List.range 30).flatMap (fun i =>
    let angle := ((i : ℝ) / 30) * Real.pi * 2 + scene.t * 2
    let dist := 60 + finaleProgress * 220 + Real.sin (scene.t * 4 + (i : ℝ)) * 30
    let shardX := impactX + Real.cos angle * dist
    let shardY := impactY + Real.sin angle * dist
    [Command.setFillStyle (Paint.rgba (120 + (i : ℝ) * 4) (160 + (i : ℝ) * 3) 255 0.6),
     Command.beginPath,
     Command.moveTo shardX shardY,
     Command.lineTo (shardX + Real.cos (angle + 0.3) * 18) (shardY + Real.sin (angle + 0.3) * 18),
     Command.lineTo (shardX + Real.cos (angle - 0.2) * 12) (shardY + Real.sin (angle - 0.2) * 12),
     Command.closePath,
     Command.fill]) ++
  [Command.restore]

/-- Source function renderFrame: clears the surface, then issues the nine
draw passes in source order, threading the operation log exactly as the
source threads the mutable drawing context. -/
def renderFrame (s : List Command) (width height tSeconds : ℝ)
    (buildings : List Building) (billboards : List Billboard) : List Command :=
  let scene : SceneContext := ⟨width, height, tSeconds, buildings, billboards⟩
  let s1 := emit s (Command.clearRect 0 0 width height)
  let s2 := emits s1 (drawSkies scene)
  let s3 := emits s2 (drawCity scene)
  let s4 := emits s3 (drawShockwave scene)
  let s5 := emits s4 (drawArena scene)
  let s6 := emits s5 (drawPortals scene)
  let s7 := emits s6 (drawMonsters scene)
  let s8 := emits s7 (drawHero scene)
  let s9 := emits s8 (drawEnergyFlows scene)
  emits s9 (drawForegroundEffects scene)

end

theorem truncQ_of_nonneg {q : ℚ} (h : 0 ≤ q) : truncQ q = ⌊q⌋ := by
  unfold truncQ
  rw [if_neg (not_lt.mpr h)]

theorem truncQ_of_neg {q : ℚ} (h : q < 0) : truncQ q = ⌈q⌉ := by
  unfold truncQ
  rw [if_pos h]

theorem floorRem_nonneg {x m : ℚ} (hm : 0 < m) : 0 ≤ floorRem x m := by
  unfold floorRem
  have h1 : ((⌊x / m⌋ : ℤ) : ℚ) ≤ x / m := Int.floor_le (x / m)
  have h2 : m * ((⌊x / m⌋ : ℤ) : ℚ) ≤ m * (x / m) := (mul_le_mul_left hm).mpr h1
  have h3 : m * (x / m) = x := by field_simp
  linarith

theorem floorRem_lt {x m : ℚ} (hm : 0 < m) : floorRem x m < m := by
  unfold floorRem
  have h1 : x / m < ((⌊x / m⌋ : ℤ) : ℚ) + 1 := Int.lt_floor_add_one (x / m)
  have h2 : m * (x / m) < m * (((⌊x / m⌋ : ℤ) : ℚ) + 1) := (mul_lt_mul_left hm).mpr h1
  have h3 : m * (x / m) = x := by field_simp
  nlinarith

/-- The double-remainder construction in wrapTime computes the floor-based
modulus for a positive loop length. -/
theorem wrapTime_eq_floorRem (x L : ℚ) (hL : 0 < L) :
    wrapTime x L = floorRem x L := by
  have hLne : L ≠ 0 := ne_of_gt hL
  unfold wrapTime
  rcases lt_or_le (x / L) 0 with hneg | hnonneg
  · -- negative quotient: the inner remainder uses the ceiling
    have hinner : jsRemQ x L = x - L * ((⌈x / L⌉ : ℤ) : ℚ) := by
      unfold jsRemQ
      rw [truncQ_of_neg hneg]
    set c : ℤ := ⌈x / L⌉ with hc
    have hrle : x - L * (c : ℚ) ≤ 0 := by
      have h1 : x / L ≤ (c : ℚ) := Int.le_ceil (x / L)
      have h2 : L * (x / L) ≤ L * (c : ℚ) := (mul_le_mul_left hL).mpr h1
      have h3 : L * (x / L) = x := by field_simp
      linarith
    have hrgt : -L < x - L * (c : ℚ) := by
      have h1 : (c : ℚ) < x / L + 1 := Int.ceil_lt_add_one (x / L)
      have h2 : L * (c : ℚ) < L * (x / L + 1) := (mul_lt_mul_left hL).mpr h1
      have h3 : L * (x / L + 1) = x + L := by field_simp
      linarith
    rcases eq_or_lt_of_le hrle with hr0 | hrneg
    · -- x is an exact multiple of L
      have hxL : x = L * (c : ℚ) := by linarith
      have hquot : x / L = (c : ℚ) := by
        rw [hxL, mul_comm, mul_div_assoc, div_self hLne, mul_one]
      have hfloor : ⌊x / L⌋ = c := by rw [hquot]; exact Int.floor_intCast c
      have harg : x - L * (c : ℚ) + L = L := by rw [hr0]; ring
      rw [hinner, harg]
      unfold jsRemQ floorRem
      rw [hfloor, div_self hLne]
      have ht1 : truncQ 1 = 1 := by norm_num [truncQ]
      rw [ht1]
      push_cast
      linarith
    · -- strictly negative inner remainder; adding L lands in (0, L)
      have hin0 : 0 < x - L * (c : ℚ) + L := by linarith
      have hinL : x - L * (c : ℚ) + L < L := by linarith
      have hq0 : 0 ≤ (x - L * (c : ℚ) + L) / L := le_of_lt (div_pos hin0 hL)
      have hq1 : (x - L * (c : ℚ) + L) / L < 1 := (div_lt_one hL).mpr hinL
      have hfl : ⌊(x - L * (c : ℚ) + L) / L⌋ = 0 := by
        rw [Int.floor_eq_iff]
        push_cast
        exact ⟨hq0, by linarith⟩
      have houter : jsRemQ (x - L * (c : ℚ) + L) L = x - L * (c : ℚ) + L := by
        unfold jsRemQ
        rw [truncQ_of_nonneg hq0, hfl]
        push_cast
        ring
      have hfloorx : ⌊x / L⌋ = c - 1 := by
        apply Int.floor_eq_iff.mpr
        constructor
        · push_cast
          have h1 : (c : ℚ) < x / L + 1 := Int.ceil_lt_add_one (x / L)
          linarith
        · push_cast
          have h1 : x / L ≤ (c : ℚ) := Int.le_ceil (x / L)
          rcases eq_or_lt_of_le h1 with heq | hlt
          · exfalso
            have : x = L * (c : ℚ) := by
              rw [← heq]
              field_simp
            rw [this] at hrneg
            simp at hrneg
          · linarith
      rw [hinner, houter]
      unfold floorRem
      rw [hfloorx]
      push_cast
      ring
  · -- nonnegative quotient: the inner remainder is already the floor remainder
    have hinner : jsRemQ x L = floorRem x L := by
      unfold jsRemQ floorRem
      rw [truncQ_of_nonneg hnonneg]
    set r : ℚ := floorRem x L with hr
    have hr0 : 0 ≤ r := floorRem_nonneg hL
    have hrL : r < L := floorRem_lt hL
    have hq1 : (1 : ℚ) ≤ (r + L) / L := by
      rw [le_div_iff₀ hL]; linarith
    have hq2 : (r + L) / L < 2 := by
      rw [div_lt_iff₀ hL]; linarith
    have hfl : ⌊(r + L) / L⌋ = 1 := by
      rw [Int.floor_eq_iff]
      push_cast
      exact ⟨hq1, by linarith⟩
    rw [hinner]
    unfold jsRemQ
    rw [truncQ_of_nonneg (le_trans (by norm_num) hq1), hfl]
    push_cast
    ring

theorem wrapTime_period_aux (x L : ℚ) (hL : 0 < L) :
    wrapTime (x + L) L = wrapTime x L := by
  have hLne : L ≠ 0 := ne_of_gt hL
  rw [wrapTime_eq_floorRem x L hL, wrapTime_eq_floorRem (x + L) L hL]
  unfold floorRem
  have hdiv : (x + L) / L = x / L + 1 := by field_simp
  rw [hdiv, Int.floor_add_one]
  push_cast
  ring

theorem wrapTime_id_aux (t L : ℚ) (hL : 0 < L) (h0 : 0 ≤ t) (h1 : t < L) :
    wrapTime t L = t := by
  rw [wrapTime_eq_floorRem t L hL]
  unfold floorRem
  have hq0 : 0 ≤ t / L := div_nonneg h0 hL.le
  have hq1 : t / L < 1 := (div_lt_one hL).mpr h1
  have hfl : ⌊t / L⌋ = 0 := by
    rw [Int.floor_eq_iff]
    push_cast
    exact ⟨hq0, by linarith⟩
  rw [hfl]
  push_cast
  ring

/-- C7: for every rational input x (negative differences included, via the
sign-corrected double remainder) and loop length L > 0, wrapTime x L lies in
[0, L) and wrapTime is L-periodic; in particular on [0, 45000) with
L = TOTAL_DURATION it is the identity. -/
theorem wrapTime_range_periodic_id (x L t : ℚ) (hL : 0 < L)
    (ht0 : 0 ≤ t) (ht1 : t < TOTAL_DURATION) :
    0 ≤ wrapTime x L ∧ wrapTime x L < L ∧
    wrapTime (x + L) L = wrapTime x L ∧
    wrapTime t TOTAL_DURATION = t := by
  refine ⟨?_, ?_, wrapTime_period_aux x L hL, ?_⟩
  · rw [wrapTime_eq_floorRem x L hL]
    exact floorRem_nonneg hL
  · rw [wrapTime_eq_floorRem x L hL]
    exact floorRem_lt hL
  · exact wrapTime_id_aux t TOTAL_DURATION (by norm_num [TOTAL_DURATION]) ht0 ht1

/-- Witness for C7 at x = -3, L = 7, t = 44999/1000. -/
theorem wrapTime_range_periodic_id_witness :
    0 ≤ wrapTime (-3) 7 ∧ wrapTime (-3) 7 < 7 ∧
    wrapTime (-3 + 7) 7 = wrapTime (-3) 7 ∧
    wrapTime (44999/1000) TOTAL_DURATION = 44999/1000 :=
  wrapTime_range_periodic_id (-3) 7 (44999/1000) (by norm_num)
    (by norm_num) (by norm_num [TOTAL_DURATION])

end CinematicCanvas

namespace HudOverlay

/-- C9: the Frame Renderer loop constant TOTAL_DURATION (milliseconds) and the
Timeline Overlay constant TOTAL (seconds) denote the numerically identical
45-second duration. -/
theorem total_duration_consistent :
    CinematicCanvas.TOTAL_DURATION = TOTAL * 1000 ∧
    CinematicCanvas.TOTAL_DURATION = 45000 := by
  constructor <;> norm_num [CinematicCanvas.TOTAL_DURATION, TOTAL]

/-- C6: the active-marker computation agrees everywhere with taking the last
marker whose time is at most the elapsed time (later entries overriding
earlier ones), and at the probed elapsed times 0, 4.999, 5, 44.999 and at
45 seconds wrapped back to 0 it selects the expected markers. -/
theorem activeMarker_selects_last_marker (e : ℚ) :
    activeMarker e = specActiveMarker e ∧
    activeMarker 0 = ⟨0, "Times Square Awakens"⟩ ∧
    activeMarker (4999/1000) = ⟨0, "Times Square Awakens"⟩ ∧
    activeMarker 5 = ⟨5, "Shockwave Kick"⟩ ∧
    activeMarker (44999/1000) = ⟨38, "Final Mega Kick"⟩ ∧
    activeMarker (hudElapsed 45000 0) = ⟨0, "Times Square Awakens"⟩ := by
  have evalTac :
      activeMarker 0 = ⟨0, "Times Square Awakens"⟩ ∧
      activeMarker (4999/1000) = ⟨0, "Times Square Awakens"⟩ ∧
      activeMarker 5 = ⟨5, "Shockwave Kick"⟩ ∧
      activeMarker (44999/1000) = ⟨38, "Final Mega Kick"⟩ ∧
      activeMarker (hudElapsed 45000 0) = ⟨0, "Times Square Awakens"⟩ := by
    norm_num [activeMarker, TIMELINE, hudElapsed, TOTAL,
      CinematicCanvas.jsRemQ, CinematicCanvas.truncQ]
  refine ⟨?_, evalTac.1, evalTac.2.1, evalTac.2.2.1, evalTac.2.2.2.1, evalTac.2.2.2.2⟩
  unfold activeMarker specActiveMarker TIMELINE
  rcases lt_or_le e 0 with h0 | h0
  · have c0 : ¬ ((0 : ℚ) ≤ e) := not_le.mpr h0
    have c5 : ¬ ((5 : ℚ) ≤ e) := by intro h; linarith
    have c12 : ¬ ((12 : ℚ) ≤ e) := by intro h; linarith
    have c20 : ¬ ((20 : ℚ) ≤ e) := by intro h; linarith
    have c28 : ¬ ((28 : ℚ) ≤ e) := by intro h; linarith
    have c38 : ¬ ((38 : ℚ) ≤ e) := by intro h; linarith
    simp [c0, c5, c12, c20, c28, c38]
  · rcases lt_or_le e 5 with h5 | h5
    · have c5 : ¬ ((5 : ℚ) ≤ e) := not_le.mpr h5
      have c12 : ¬ ((12 : ℚ) ≤ e) := by intro h; linarith
      have c20 : ¬ ((20 : ℚ) ≤ e) := by intro h; linarith
      have c28 : ¬ ((28 : ℚ) ≤ e) := by intro h; linarith
      have c38 : ¬ ((38 : ℚ) ≤ e) := by intro h; linarith
      simp [h0, c5, c12, c20, c28, c38]
    · rcases lt_or_le e 12 with h12 | h12
      · have c12 : ¬ ((12 : ℚ) ≤ e) := not_le.mpr h12
        have c20 : ¬ ((20 : ℚ) ≤ e) := by intro h; linarith
        have c28 : ¬ ((28 : ℚ) ≤ e) := by intro h; linarith
        have c38 : ¬ ((38 : ℚ) ≤ e) := by intro h; linarith
        simp [h0, h5, c12, c20, c28, c38]
      · rcases lt_or_le e 20 with h20 | h20
        · have c20 : ¬ ((20 : ℚ) ≤ e) := not_le.mpr h20
          have c28 : ¬ ((28 : ℚ) ≤ e) := by intro h; linarith
          have c38 : ¬ ((38 : ℚ) ≤ e) := by intro h; linarith
          simp [h0, h5, h12, c20, c28, c38]
        · rcases lt_or_le e 28 with h28 | h28
          · have c28 : ¬ ((28 : ℚ) ≤ e) := not_le.mpr h28
            have c38 : ¬ ((38 : ℚ) ≤ e) := by intro h; linarith
            simp [h0, h5, h12, h20, c28, c38]
          · rcases lt_or_le e 38 with h38 | h38
            · have c38 : ¬ ((38 : ℚ) ≤ e) := not_le.mpr h38
              simp [h0, h5, h12, h20, h28, c38]
            · simp [h0, h5, h12, h20, h28, h38]

end HudOverlay

namespace CinematicCanvas

theorem clamp_of_mem {v lo hi : ℝ} (h1 : lo ≤ v) (h2 : v ≤ hi) : clamp v lo hi = v := by
  unfold clamp
  rw [max_eq_right h1, min_eq_right h2]

theorem clamp_of_ge {v lo hi : ℝ} (h0 : lo ≤ hi) (h1 : hi ≤ v) : clamp v lo hi = hi := by
  unfold clamp
  rw [max_eq_right (le_trans h0 h1), min_eq_left h1]

theorem jsRem_bounds {x m : ℝ} (hm : 0 < m) : -m < jsRem x m ∧ jsRem x m < m := by
  have hmne : m ≠ 0 := ne_of_gt hm
  unfold jsRem truncR
  have h3 : m * (x / m) = x := by field_simp
  rcases lt_or_le (x / m) 0 with hneg | hpos
  · rw [if_pos hneg]
    have h1 : x / m ≤ ((⌈x / m⌉ : ℤ) : ℝ) := Int.le_ceil _
    have h2 : ((⌈x / m⌉ : ℤ) : ℝ) < x / m + 1 := Int.ceil_lt_add_one _
    have h4 : m * (x / m) ≤ m * ((⌈x / m⌉ : ℤ) : ℝ) := (mul_le_mul_left hm).mpr h1
    have h5 : m * ((⌈x / m⌉ : ℤ) : ℝ) < m * (x / m + 1) := (mul_lt_mul_left hm).mpr h2
    have h6 : m * (x / m + 1) = x + m := by rw [mul_add, h3, mul_one]
    constructor <;> linarith
  · rw [if_neg (not_lt.mpr hpos)]
    have h1 : ((⌊x / m⌋ : ℤ) : ℝ) ≤ x / m := Int.floor_le _
    have h2 : x / m < ((⌊x / m⌋ : ℤ) : ℝ) + 1 := Int.lt_floor_add_one _
    have h4 : m * ((⌊x / m⌋ : ℤ) : ℝ) ≤ m * (x / m) := (mul_le_mul_left hm).mpr h1
    have h5 : m * (x / m) < m * (((⌊x / m⌋ : ℤ) : ℝ) + 1) := (mul_lt_mul_left hm).mpr h2
    have h6 : m * (((⌊x / m⌋ : ℤ) : ℝ) + 1) = m * ((⌊x / m⌋ : ℤ) : ℝ) + m := by ring
    constructor <;> linarith

/-- C2 evidence: generateBuildings always returns exactly count records, but
the bands actually guaranteed by the remainder arithmetic are
height in (-0.4, 1) and width in (-0.02, 0.08): the remainder inherits the
sign of a negative seed, so the claimed lower bounds 0.3 and 0.03 fail. -/
theorem generateBuildings_length_and_bands (count : ℕ) :
    (generateBuildings count).length = count ∧
    ∀ b ∈ generateBuildings count,
      -0.4 < b.height ∧ b.height < 1 ∧ -0.02 < b.width ∧ b.width < 0.08 := by
  constructor
  · simp [generateBuildings]
  · intro b hb
    simp only [generateBuildings, List.mem_map, List.mem_range] at hb
    obtain ⟨i, hi, rfl⟩ := hb
    have hh := jsRem_bounds (x := Real.sin ((i : ℝ) * 2245.929) * 10000 * 3.7)
      (m := 0.7) (by norm_num)
    have hw := jsRem_bounds (x := Real.sin ((i : ℝ) * 2245.929) * 10000 * 1.3)
      (m := 0.05) (by norm_num)
    simp only [buildingAt]
    refine ⟨by linarith [hh.1], by linarith [hh.2], by linarith [hw.1], by linarith [hw.2]⟩

/-- Companion witness for the C2 evidence theorem, at count = 1 (the single
generated building, from seed sin 0 = 0, has height 0.3 and width 0.03). -/
theorem generateBuildings_length_and_bands_witness :
    (generateBuildings 1).length = 1 ∧
    (-0.4 < (buildingAt 1 0).height ∧ (buildingAt 1 0).height < 1 ∧
     -0.02 < (buildingAt 1 0).width ∧ (buildingAt 1 0).width < 0.08) :=
  ⟨(generateBuildings_length_and_bands 1).1,
   (generateBuildings_length_and_bands 1).2 (buildingAt 1 0)
     (by simp [generateBuildings])⟩

end CinematicCanvas

namespace CinematicCanvas

/-- C3 counterexample: at t = 44.5, inside (44, 45), the Monsters pass still
issues draw operations, contradicting a 24-44 activation window. -/
theorem drawMonsters_renders_past_44 :
    drawMonsters ⟨100, 100, 44.5, [], []⟩ ≠ [] := by
  have h : ¬ ((44.5 : ℝ) < monsterStart) := by norm_num [monsterStart]
  simp [drawMonsters, if_neg h, monsterDraw, List.enum]

/-- C3 amended: the Monsters pass renders nothing before t = 24, but for
every t at or past 24 (until the loop wraps at 45) it keeps rendering; 44
only marks where the saturating monsterPhase ramp reaches and stays at 1. -/
theorem drawMonsters_gating (w h t1 t2 t3 : ℝ) (bs : List Building)
    (bbs : List Billboard) (h1 : t1 < 24) (h2 : 24 ≤ t2) (h3 : 44 ≤ t3) :
    drawMonsters ⟨w, h, t1, bs, bbs⟩ = [] ∧
    drawMonsters ⟨w, h, t2, bs, bbs⟩ ≠ [] ∧
    monsterPhase t3 = 1 := by
  refine ⟨?_, ?_, ?_⟩
  · have hlt : ((⟨w, h, t1, bs, bbs⟩ : SceneContext)).t < monsterStart := by
      simpa [monsterStart] using h1
    simp [drawMonsters, if_pos hlt]
  · have hge : ¬ ((⟨w, h, t2, bs, bbs⟩ : SceneContext)).t < monsterStart := by
      simp only [monsterStart]
      exact not_lt.mpr (by simpa using h2)
    simp [drawMonsters, if_neg hge, monsterDraw, List.enum]
  · unfold monsterPhase monsterStart monsterEnd
    rw [clamp_of_ge (by norm_num)]
    rw [le_div_iff₀ (by norm_num : (0:ℝ) < 44 - 24)]
    linarith

/-- Witness for C3 amended, at t1 = 10, t2 = t3 = 44.5 on a 100 by 100
frame. -/
theorem drawMonsters_gating_witness :
    drawMonsters ⟨100, 100, 10, [], []⟩ = [] ∧
    drawMonsters ⟨100, 100, 44.5, [], []⟩ ≠ [] ∧
    monsterPhase 44.5 = 1 :=
  drawMonsters_gating 100 100 10 44.5 44.5 [] [] (by norm_num) (by norm_num)
    (by norm_num)

/-- C5: the Shockwave pass renders nothing strictly before t = 5, renders its
zero-progress state (radius 0) at exactly t = 5, reaches radius
max(width, height) * 1.2 at t = 11, and stays clamped at that radius for
every t past 11. -/
theorem drawShockwave_boundary (w h t1 t2 : ℝ) (bs : List Building)
    (bbs : List Billboard) (h1 : t1 < 5) (h2 : 11 < t2) :
    drawShockwave ⟨w, h, t1, bs, bbs⟩ = [] ∧
    drawShockwave ⟨w, h, 5, bs, bbs⟩ ≠ [] ∧
    shockRadius w h 5 = 0 ∧
    shockRadius w h 11 = Max.max w h * 1.2 ∧
    shockRadius w h t2 = Max.max w h * 1.2 := by
  refine ⟨?_, ?_, ?_, ?_, ?_⟩
  · have hlt : ((⟨w, h, t1, bs, bbs⟩ : SceneContext)).t < shockStart := by
      simpa [shockStart] using h1
    simp [drawShockwave, if_pos hlt]
  · have hge : ¬ ((⟨w, h, 5, bs, bbs⟩ : SceneContext)).t < shockStart := by
      norm_num [shockStart]
    simp [drawShockwave, if_neg hge]
  · unfold shockRadius shockLocalT shockStart shockEnd lerp easeInOut clamp
    norm_num
  · unfold shockRadius shockLocalT shockStart shockEnd lerp easeInOut clamp
    norm_num
  · have hloc : shockLocalT t2 = 1 := by
      unfold shockLocalT shockStart shockEnd
      rw [clamp_of_ge (by norm_num)]
      rw [le_div_iff₀ (by norm_num : (0:ℝ) < 11 - 5)]
      linarith
    unfold shockRadius lerp easeInOut
    rw [hloc]
    norm_num

/-- Witness for C5 at t1 = 4.999, t2 = 11.001 on a 300 by 200 frame. -/
theorem drawShockwave_boundary_witness :
    drawShockwave ⟨300, 200, 4999/1000, [], []⟩ = [] ∧
    drawShockwave ⟨300, 200, 5, [], []⟩ ≠ [] ∧
    shockRadius 300 200 5 = 0 ∧
    shockRadius 300 200 11 = Max.max 300 200 * 1.2 ∧
    shockRadius 300 200 (11001/1000) = Max.max 300 200 * 1.2 :=
  drawShockwave_boundary 300 200 (4999/1000) (11001/1000) [] [] (by norm_num)
    (by norm_num)

/-- C8: one renderFrame call first clears the surface and then issues exactly
the nine draw passes in the fixed order Sky, City, Shockwave, Arena, Portals,
Monsters, Hero, Energy Flows, Foreground Effects, every pass computed from
the one shared immutable scene (same t, same layout data, same dimensions). -/
theorem renderFrame_order (s : List Command) (w h t : ℝ) (bs : List Building)
    (bbs : List Billboard) :
    renderFrame s w h t bs bbs =
      s ++ [Command.clearRect 0 0 w h] ++
      drawSkies ⟨w, h, t, bs, bbs⟩ ++
      drawCity ⟨w, h, t, bs, bbs⟩ ++
      drawShockwave ⟨w, h, t, bs, bbs⟩ ++
      drawArena ⟨w, h, t, bs, bbs⟩ ++
      drawPortals ⟨w, h, t, bs, bbs⟩ ++
      drawMonsters ⟨w, h, t, bs, bbs⟩ ++
      drawHero ⟨w, h, t, bs, bbs⟩ ++
      drawEnergyFlows ⟨w, h, t, bs, bbs⟩ ++
      drawForegroundEffects ⟨w, h, t, bs, bbs⟩ := by
  simp [renderFrame, emit, emits, List.append_assoc]

end CinematicCanvas

namespace CinematicCanvas

theorem holdingPhase_eq_linear {t : ℝ} (h1 : 40 < t) (h2 : t ≤ 45) :
    holdingPhase t = 1 - (t - 40) / 5 := by
  have hn5 : ¬ t < 5 := by linarith
  have hn40 : ¬ t < 40 := by linarith
  simp only [holdingPhase, if_neg hn5, if_neg hn40]
  apply clamp_of_mem
  · linarith
  · linarith

/-- C4: the ball radius factor holdingPhase is 0 at t = 0, rises linearly as
t/5 on [0, 5] to exactly 1 at t = 5, stays exactly 1 on [5, 40], decreases
linearly as 1 - (t - 40)/5 on (40, 45), and tends to 0 as t approaches 45
from below (the loop wraps back to factor 0 at t = 0). -/
theorem holdingPhase_envelope (t1 t2 t3 : ℝ) (h1a : 0 ≤ t1) (h1b : t1 ≤ 5)
    (h2a : 5 ≤ t2) (h2b : t2 ≤ 40) (h3a : 40 < t3) (h3b : t3 < 45) :
    holdingPhase 0 = 0 ∧ holdingPhase 5 = 1 ∧
    holdingPhase t1 = t1 / 5 ∧ holdingPhase t2 = 1 ∧
    holdingPhase t3 = 1 - (t3 - 40) / 5 ∧
    Filter.Tendsto holdingPhase (nhdsWithin 45 (Set.Iio 45)) (nhds 0) := by
  refine ⟨?_, ?_, ?_, ?_, holdingPhase_eq_linear h3a h3b.le, ?_⟩
  · norm_num [holdingPhase, clamp]
  · norm_num [holdingPhase]
  · rcases lt_or_le t1 5 with h | h
    · simp only [holdingPhase, if_pos h]
      exact clamp_of_mem (div_nonneg h1a (by norm_num))
        ((div_le_one (by norm_num)).mpr h1b)
    · have ht : t1 = 5 := le_antisymm h1b h
      subst ht
      norm_num [holdingPhase]
  · have hn5 : ¬ t2 < 5 := not_lt.mpr h2a
    rcases lt_or_le t2 40 with h | h
    · simp [holdingPhase, if_neg hn5, if_pos h]
    · have ht : t2 = 40 := le_antisymm h2b h
      subst ht
      norm_num [holdingPhase, clamp]
  · have hev : (fun t : ℝ => 1 - (t - 40) / 5)
        =ᶠ[nhdsWithin 45 (Set.Iio 45)] holdingPhase := by
      have hmem : Set.Ioo (40 : ℝ) 45 ∈ nhdsWithin 45 (Set.Iio 45) :=
        Ioo_mem_nhdsWithin_Iio (Set.mem_Ioc.mpr ⟨by norm_num, le_refl 45⟩)
      refine Filter.eventually_of_mem hmem (fun t ht => ?_)
      exact (holdingPhase_eq_linear ht.1 ht.2.le).symm
    have h1 : Filter.Tendsto (fun t : ℝ => 1 - (t - 40) / 5) (nhds 45)
        (nhds (1 - ((45 : ℝ) - 40) / 5)) := Continuous.tendsto (by fun_prop) 45
    have h2 : (1 : ℝ) - ((45 : ℝ) - 40) / 5 = 0 := by norm_num
    rw [h2] at h1
    exact Filter.Tendsto.congr' hev (h1.mono_left nhdsWithin_le_nhds)

/-- Witness for C4 at t1 = 3, t2 = 20, t3 = 42. -/
theorem holdingPhase_envelope_witness :
    holdingPhase 0 = 0 ∧ holdingPhase 5 = 1 ∧
    holdingPhase 3 = 3 / 5 ∧ holdingPhase 20 = 1 ∧
    holdingPhase 42 = 1 - (42 - 40) / 5 ∧
    Filter.Tendsto holdingPhase (nhdsWithin 45 (Set.Iio 45)) (nhds 0) :=
  holdingPhase_envelope 3 20 42 (by norm_num) (by norm_num) (by norm_num)
    (by norm_num) (by norm_num) (by norm_num)

/-- C10: the ball offset is the held value 0.4 * baseSize on all of [0, 5],
jumps discontinuously just past t = 5 (the right limit at 5 is 0), peaks at
0.9 * baseSize at t = 5.25, and is exactly 0 for every t in [5.5, 45): after
the throw the ball sits centered on the hero and never returns to the held
offset. -/
theorem ballOffsetX_discontinuous_throw (t1 t2 : ℝ) (h1a : 0 ≤ t1)
    (h1b : t1 ≤ 5) (h2a : 5.5 ≤ t2) (h2b : t2 < 45) :
    ballOffsetX t1 = 0.4 * baseSize ∧
    ballOffsetX 5.25 = 0.9 * baseSize ∧
    ballOffsetX t2 = 0 ∧
    Filter.Tendsto ballOffsetX (nhdsWithin 5 (Set.Ioi 5)) (nhds 0) := by
  refine ⟨?_, ?_, ?_, ?_⟩
  · simp only [ballOffsetX, if_neg (not_lt.mpr h1b)]
    ring
  · have h : (5 : ℝ) < 5.25 := by norm_num
    simp only [ballOffsetX, if_pos h]
    have hcl : clamp ((5.25 - 5) / 0.5) 0 1 = 1 / 2 := by
      rw [clamp_of_mem (by norm_num) (by norm_num)]
      norm_num
    rw [hcl, show (1 / 2 : ℝ) * Real.pi = Real.pi / 2 by ring,
      Real.sin_pi_div_two]
    norm_num [baseSize]
  · have h : (5 : ℝ) < t2 := by linarith
    simp only [ballOffsetX, if_pos h]
    have hcl : clamp ((t2 - 5) / 0.5) 0 1 = 1 := by
      apply clamp_of_ge (by norm_num)
      rw [le_div_iff₀ (by norm_num : (0 : ℝ) < 0.5)]
      linarith
    rw [hcl, one_mul, Real.sin_pi, mul_zero]
  · have hgc : Continuous fun t : ℝ =>
        baseSize * 0.9 * Real.sin (clamp ((t - 5) / 0.5) 0 1 * Real.pi) := by
      unfold clamp
      fun_prop
    have hev : (fun t : ℝ =>
          baseSize * 0.9 * Real.sin (clamp ((t - 5) / 0.5) 0 1 * Real.pi))
        =ᶠ[nhdsWithin 5 (Set.Ioi 5)] ballOffsetX := by
      refine Filter.eventually_of_mem self_mem_nhdsWithin (fun t ht => ?_)
      simp only [ballOffsetX, if_pos (Set.mem_Ioi.mp ht)]
    have h1 : Filter.Tendsto (fun t : ℝ =>
          baseSize * 0.9 * Real.sin (clamp ((t - 5) / 0.5) 0 1 * Real.pi))
        (nhds 5)
        (nhds (baseSize * 0.9 *
          Real.sin (clamp (((5 : ℝ) - 5) / 0.5) 0 1 * Real.pi))) :=
      hgc.tendsto 5
    have h2 : baseSize * 0.9 *
        Real.sin (clamp (((5 : ℝ) - 5) / 0.5) 0 1 * Real.pi) = 0 := by
      rw [show ((5 : ℝ) - 5) / 0.5 = 0 by norm_num,
        clamp_of_mem (le_refl 0) (by norm_num), zero_mul, Real.sin_zero,
        mul_zero]
    rw [h2] at h1
    exact Filter.Tendsto.congr' hev (h1.mono_left nhdsWithin_le_nhds)

/-- Witness for C10 at t1 = 2, t2 = 10. -/
theorem ballOffsetX_discontinuous_throw_witness :
    ballOffsetX 2 = 0.4 * baseSize ∧
    ballOffsetX 5.25 = 0.9 * baseSize ∧
    ballOffsetX 10 = 0 ∧
    Filter.Tendsto ballOffsetX (nhdsWithin 5 (Set.Ioi 5)) (nhds 0) :=
  ballOffsetX_discontinuous_throw 2 10 (by norm_num) (by norm_num)
    (by norm_num) (by norm_num)

/-- C1 counterexample: doubling the frame width does not double the ball
position produced by the Hero pass, because its baseSize = 160 offset is an
absolute pixel quantity: ballX 0 200 = 164 while 2 * ballX 0 100 = 228. -/
theorem ballX_not_uniformly_scaled :
    ¬ (ballX 0 (2 * 100) = 2 * ballX 0 100) := by
  have h : ¬ ((5 : ℝ) < 0) := by norm_num
  simp only [ballX, heroX, ballOffsetX, if_neg h, baseSize]
  norm_num

/-- C1 amended: geometry expressed through normalized parameters (the hero
anchor at width/2 and 0.65 * height, the shockwave radius at
max(width, height) * 1.2 times eased progress) scales uniformly with any
factor k, but the Hero pass sizes its ball through the absolute pixel
constant baseSize = 160, so its geometry does not scale and the
resize-independence claim fails as stated. -/
theorem drawPass_scaling (k w h t : ℝ) (hk : 0 < k) :
    heroX (k * w) = k * heroX w ∧
    heroY (k * h) = k * heroY h ∧
    shockRadius (k * w) (k * h) t = k * shockRadius w h t ∧
    ¬ (ballX 0 (2 * 100) = 2 * ballX 0 100) := by
  refine ⟨?_, ?_, ?_, ?_⟩
  · unfold heroX
    ring
  · unfold heroY
    ring
  · have hmax : Max.max (k * w) (k * h) = k * Max.max w h := by
      rcases le_total w h with hwh | hwh
      · rw [max_eq_right hwh, max_eq_right ((mul_le_mul_left hk).mpr hwh)]
      · rw [max_eq_left hwh, max_eq_left ((mul_le_mul_left hk).mpr hwh)]
    unfold shockRadius lerp
    rw [hmax]
    ring
  · have hno : ¬ ((5 : ℝ) < 0) := by norm_num
    simp only [ballX, heroX, ballOffsetX, if_neg hno, baseSize]
    norm_num

/-- Witness for C1 amended at k = 2, w = 3, h = 7, t = 8. -/
theorem drawPass_scaling_witness :
    heroX (2 * 3) = 2 * heroX 3 ∧
    heroY (2 * 7) = 2 * heroY 7 ∧
    shockRadius (2 * 3) (2 * 7) 8 = 2 * shockRadius 3 7 8 ∧
    ¬ (ballX 0 (2 * 100) = 2 * ballX 0 100) :=
  drawPass_scaling 2 3 7 8 (by norm_num)

end CinematicCanvas
